import Mathlib

/-!
Shallow embedding of the `alexames/targets` calculator example.

The repository has two source files:
  * `src/examples/basic_library/include/mathlib/calculator.h` — the header of
    `mathlib::Calculator`, declaring four static operations
    (`int add(int, int)`, `int subtract(int, int)`, `int multiply(int, int)`,
    `double divide(int, int)`);
  * `src/examples/executable_with_deps/src/main.cpp` — a demo `main` that
    prints two banner lines, then one result line per operation on the fixed
    operands 10 and 5, with a try/catch around `divide` that prints
    `"Error: <message>"` to `std::cerr` and returns 0.

The bodies of the four operations live in a `calculator.cpp` that is not part
of the repository snapshot, so the operations themselves are modelled from the
specification's words (spec §4.1, §7): integers are embedded as `ℤ`, the
double quotient as an exact rational `ℚ`, and the single DivisionByZero error
as a one-constructor error type returned through `Except`.  A separate
machine-width layer (`Int32`) embeds the header's fixed-width `int` type as
integers reduced modulo 2^32 into the two's-complement range.
-/

namespace Mathlib4Targets

/-- Modelled from the spec: the single error kind of the library,
"DivisionByZero, raised by the divide operation exactly when the divisor is
zero" (spec §7).  One constructor, since no other error condition exists. -/
inductive CalcError where
  | divisionByZero
deriving DecidableEq, Repr

/-- Modelled from the spec: the diagnostic message carried by the error
("`<message>` describes the division-by-zero condition", spec §6); it is what
the demo's catch handler prints after `"Error: "`. -/
def CalcError.what : CalcError → String
  | .divisionByZero => "Division by zero"

namespace Calculator

/-- Modelled from the spec: the body of `mathlib::Calculator::add` is not in
the repository snapshot (only its declaration in `calculator.h` is);
spec §4.1 says it "returns a + b. No failure conditions." -/
def add (a b : ℤ) : ℤ := a + b

/-- Modelled from the spec: the body of `mathlib::Calculator::subtract` is not
in the repository snapshot; spec §4.1 says it "returns a - b. No failure
conditions." -/
def subtract (a b : ℤ) : ℤ := a - b

/-- Modelled from the spec: the body of `mathlib::Calculator::multiply` is not
in the repository snapshot; spec §4.1 says it "returns a * b. No failure
conditions." -/
def multiply (a b : ℤ) : ℤ := a * b

/-- Modelled from the spec: the body of `mathlib::Calculator::divide` is not
in the repository snapshot; spec §4.1 says it "returns a / b as a
floating-point value. Fails with a DivisionByZero error when b = 0. No other
error conditions."  The floating-point quotient is embedded as the exact
rational `a / b`. -/
def divide (a b : ℤ) : Except CalcError ℚ :=
  if b = 0 then .error .divisionByZero else .ok ((a : ℚ) / (b : ℚ))

end Calculator

namespace Int32

/-- The two's-complement reduction of an integer to the 32-bit range
`[-2^31, 2^31)`, the width of the `int` type that `calculator.h` declares for
the operands and the add/subtract/multiply results. -/
def wrap (x : ℤ) : ℤ := (x + 2147483648) % 4294967296 - 2147483648

/-- Membership in the representable range of a 32-bit `int`. -/
def inRange (x : ℤ) : Prop := -2147483648 ≤ x ∧ x < 2147483648

instance (x : ℤ) : Decidable (inRange x) := by unfold inRange; infer_instance

/-- Modelled from the spec: `Calculator::add` at the header's fixed-width
`int` type — the mathematical sum reduced to the machine width. -/
def add (a b : ℤ) : ℤ := wrap (Calculator.add a b)

/-- Modelled from the spec: `Calculator::subtract` at the header's fixed-width
`int` type. -/
def subtract (a b : ℤ) : ℤ := wrap (Calculator.subtract a b)

/-- Modelled from the spec: `Calculator::multiply` at the header's fixed-width
`int` type. -/
def multiply (a b : ℤ) : ℤ := wrap (Calculator.multiply a b)

end Int32

namespace Demo

/-- The first banner line `main.cpp` writes to `std::cout`. -/
def banner1 : String := "Calculator Example Application"

/-- The second banner line `main.cpp` writes to `std::cout`. -/
def banner2 : String := "==============================="

/-- One arithmetic result line, `"<a> <symbol> <b> = <result>"`, as the chain
of `<<` insertions in `main.cpp` produces it. -/
def resultLine (a : ℤ) (sym : String) (b : ℤ) (res : String) : String :=
  toString a ++ " " ++ sym ++ " " ++ toString b ++ " = " ++ res

/-- Modelled from the spec: the default `std::cout` rendering of the `double`
quotient; an integral value prints without a fractional part (the demo's
`10 / 5` prints as `2`), a non-integral one is rendered from the exact
rational. -/
def fmtQuot (q : ℚ) : String :=
  if q.den = 1 then toString q.num else toString q

/-- The observable outcome of one run of the demo executable: the lines
written to `std::cout`, the lines written to `std::cerr`, and the process
exit status. -/
structure DemoOutput where
  stdout : List String
  stderr : List String
  exitCode : ℤ
deriving DecidableEq, Repr

/-- The body of `main` in `main.cpp`, abstracted over the two local operands
(`main` fixes them to 10 and 5): two banner lines, one result line per
operation, and a try/catch around `divide` that redirects the failure to
`std::cerr` as `"Error: <message>"`; the function returns 0 on both paths. -/
def runDemo (a b : ℤ) : DemoOutput :=
  let base : List String :=
    [banner1, banner2,
     resultLine a "+" b (toString (Calculator.add a b)),
     resultLine a "-" b (toString (Calculator.subtract a b)),
     resultLine a "*" b (toString (Calculator.multiply a b))]
  match Calculator.divide a b with
  | .ok q => { stdout := base ++ [resultLine a "/" b (fmtQuot q)]
               stderr := []
               exitCode := 0 }
  | .error e => { stdout := base
                  stderr := ["Error: " ++ e.what]
                  exitCode := 0 }

/-- The first operand: `int a = 10;` in `main.cpp`. -/
def a : ℤ := 10

/-- The second operand, the divisor: `int b = 5;` in `main.cpp`. -/
def b : ℤ := 5

/-- The demo executable as shipped: `main` run on the fixed operands. -/
def main : DemoOutput := runDemo a b

end Demo

/-! ## Helper lemmas -/

/-- The demo run on the shipped operands 10 and 5: its complete observable
output, computed once and shared by the theorems about the demo. -/
theorem demoMain_eq :
    Demo.main =
      { stdout := [Demo.banner1, Demo.banner2,
          Demo.resultLine 10 "+" 5 "15", Demo.resultLine 10 "-" 5 "5",
          Demo.resultLine 10 "*" 5 "50", Demo.resultLine 10 "/" 5 "2"]
        stderr := []
        exitCode := 0 } := by
  have h : Calculator.divide 10 5 = .ok 2 := by norm_num [Calculator.divide]
  have hq : Demo.fmtQuot 2 = "2" := by norm_num [Demo.fmtQuot]; rfl
  simp only [Demo.main, Demo.runDemo, Demo.a, Demo.b, h, hq]
  decide

/-- Every result line contains the character `=` and the character ` `
(both occur in its `" = "` segment), whatever the operands, symbol and
rendered result are. -/
theorem resultLine_data_mem (p : ℤ) (s : String) (q : ℤ) (r : String) :
    '=' ∈ (Demo.resultLine p s q r).data ∧ ' ' ∈ (Demo.resultLine p s q r).data := by
  have he : '=' ∈ (" = " : String).data := by decide
  have hs : ' ' ∈ (" = " : String).data := by decide
  unfold Demo.resultLine
  constructor <;>
  · simp only [String.data_append, List.mem_append]
    tauto

/-- The first banner line is not a result line: it contains no `=`. -/
theorem banner1_ne_resultLine (p : ℤ) (s : String) (q : ℤ) (r : String) :
    Demo.banner1 ≠ Demo.resultLine p s q r := by
  intro hcontra
  have h := (resultLine_data_mem p s q r).1
  rw [← hcontra] at h
  exact absurd h (by decide)

/-- The second banner line is not a result line: it contains no blank. -/
theorem banner2_ne_resultLine (p : ℤ) (s : String) (q : ℤ) (r : String) :
    Demo.banner2 ≠ Demo.resultLine p s q r := by
  intro hcontra
  have h := (resultLine_data_mem p s q r).2
  rw [← hcontra] at h
  exact absurd h (by decide)

/-! ## Claim theorems -/

/-- C1: for every pair of integers a, b, `divide(a, b)` fails with the
DivisionByZero error exactly when b = 0; when b is nonzero it returns the
quotient a / b; and no error other than DivisionByZero can ever be
returned. -/
theorem divide_error_iff_divisor_zero (a b : ℤ) :
    (Calculator.divide a b = .error .divisionByZero ↔ b = 0) ∧
    (b ≠ 0 → Calculator.divide a b = .ok ((a : ℚ) / (b : ℚ))) ∧
    (∀ e : CalcError, Calculator.divide a b = .error e → e = .divisionByZero) := by
  unfold Calculator.divide
  by_cases hb : b = 0 <;> simp [hb]

/-- C4: for every pair of integers a, b, `subtract(a, b)` is the negation of
`subtract(b, a)`. -/
theorem subtract_neg_swap (a b : ℤ) :
    Calculator.subtract a b = - Calculator.subtract b a := by
  unfold Calculator.subtract
  ring

/-- C5: for every pair of integers a, b, `add` and `multiply` are
commutative. -/
theorem add_and_multiply_comm (a b : ℤ) :
    Calculator.add a b = Calculator.add b a ∧
    Calculator.multiply a b = Calculator.multiply b a := by
  unfold Calculator.add Calculator.multiply
  exact ⟨Int.add_comm a b, Int.mul_comm a b⟩

/-- C6: on the demo's fixed operands, `add(10, 5) = 15`,
`subtract(10, 5) = 5`, `multiply(10, 5) = 50`, and `divide(10, 5)` succeeds
with the value 2. -/
theorem fixed_operand_results :
    Calculator.add 10 5 = 15 ∧ Calculator.subtract 10 5 = 5 ∧
    Calculator.multiply 10 5 = 50 ∧ Calculator.divide 10 5 = .ok 2 := by
  refine ⟨by decide, by decide, by decide, ?_⟩
  norm_num [Calculator.divide]

/-- C7: for every pair of integers a, b with b nonzero, the quotient
`divide(a, b)` multiplied back by b is within every positive tolerance of a
(in the exact rational model of the floating-point value the recovery is
exact). -/
theorem divide_mul_divisor_near_dividend (a b : ℤ) (q ε : ℚ)
    (hb : b ≠ 0) (hq : Calculator.divide a b = .ok q) (hε : 0 < ε) :
    |q * (b : ℚ) - (a : ℚ)| < ε := by
  unfold Calculator.divide at hq
  rw [if_neg hb] at hq
  obtain rfl : ((a : ℚ) / (b : ℚ)) = q := by
    simpa using hq
  have hbq : (b : ℚ) ≠ 0 := by exact_mod_cast hb
  rw [div_mul_cancel₀ _ hbq]
  simpa using hε

/-- Witness for C7 at a = 10, b = 4, tolerance 1: the quotient 5/2 times 4
is within 1 of 10. -/
theorem divide_mul_divisor_near_dividend_witness :
    |(5 / 2 : ℚ) * ((4 : ℤ) : ℚ) - ((10 : ℤ) : ℚ)| < 1 :=
  divide_mul_divisor_near_dividend 10 4 (5 / 2) 1 (by decide)
    (by norm_num [Calculator.divide]) (by norm_num)

/-- C2: whenever the divide call inside the demo fails with DivisionByZero,
the demo prints exactly one line `"Error: <message>"` to the diagnostic
stream, its console output still carries the banner and the three preceding
result lines (it continues rather than terminating abnormally), and the
process exits with status 0 — the error never escapes `main`. -/
theorem demo_handles_division_by_zero (x y : ℤ) (e : CalcError)
    (h : Calculator.divide x y = .error e) :
    (Demo.runDemo x y).stderr = ["Error: " ++ e.what] ∧
    (Demo.runDemo x y).stdout.length = 5 ∧
    (Demo.runDemo x y).exitCode = 0 := by
  simp [Demo.runDemo, h]

/-- Witness for C2 at operands 10 and 0: the run prints the one error line
and exits with status 0. -/
theorem demo_handles_division_by_zero_witness :
    (Demo.runDemo 10 0).stderr = ["Error: " ++ CalcError.divisionByZero.what] ∧
    (Demo.runDemo 10 0).stdout.length = 5 ∧
    (Demo.runDemo 10 0).exitCode = 0 :=
  demo_handles_division_by_zero 10 0 .divisionByZero rfl

/-- C3, as stated, is false of the code: the demo's console output does not
consist of the four result lines alone — no choice of rendered results makes
the output equal to just those four lines, because two banner lines precede
them (the output has six lines, not four). -/
theorem demo_stdout_not_result_lines_only :
    ¬ ∃ r1 r2 r3 r4 : String,
      (Demo.main).stdout =
        [Demo.resultLine 10 "+" 5 r1, Demo.resultLine 10 "-" 5 r2,
         Demo.resultLine 10 "*" 5 r3, Demo.resultLine 10 "/" 5 r4] := by
  rintro ⟨r1, r2, r3, r4, h⟩
  have h6 : (Demo.main).stdout.length = 6 := by rw [demoMain_eq]; rfl
  rw [h] at h6
  simp at h6

/-- C3 amended: after the two banner lines, the demo's console output
consists of one result line of the form `"<a> <symbol> <b> = <result>"` per
arithmetic operation, in the order add, subtract, multiply, divide. -/
theorem demo_stdout_banners_then_result_lines :
    (Demo.main).stdout =
      [Demo.banner1, Demo.banner2,
       Demo.resultLine 10 "+" 5 "15", Demo.resultLine 10 "-" 5 "5",
       Demo.resultLine 10 "*" 5 "50", Demo.resultLine 10 "/" 5 "2"] := by
  rw [demoMain_eq]

/-- C8: for any operands, the demo prints the two banner lines first, before
any arithmetic result line, and neither banner line is of the
`"<a> <symbol> <b> = <result>"` form. -/
theorem demo_banner_lines_first (x y : ℤ) :
    (Demo.runDemo x y).stdout.take 2 = [Demo.banner1, Demo.banner2] ∧
    (∀ (p : ℤ) (s : String) (q : ℤ) (r : String),
      Demo.banner1 ≠ Demo.resultLine p s q r) ∧
    (∀ (p : ℤ) (s : String) (q : ℤ) (r : String),
      Demo.banner2 ≠ Demo.resultLine p s q r) := by
  refine ⟨?_, banner1_ne_resultLine, banner2_ne_resultLine⟩
  unfold Demo.runDemo
  cases Calculator.divide x y <;> simp

/-- C9: in the demo as shipped the divisor operand is the constant 5, which
is nonzero, so divide cannot fail there: the catch branch is dead (nothing is
printed to the diagnostic stream) and the quotient result line is printed. -/
theorem demo_divisor_nonzero_catch_unreachable :
    Demo.b = 5 ∧ Demo.b ≠ 0 ∧
    (∀ e : CalcError, Calculator.divide Demo.a Demo.b ≠ .error e) ∧
    (Demo.main).stderr = [] ∧
    Demo.resultLine 10 "/" 5 "2" ∈ (Demo.main).stdout := by
  have hdiv : Calculator.divide Demo.a Demo.b = .ok 2 := by
    norm_num [Calculator.divide, Demo.a, Demo.b]
  refine ⟨rfl, by decide, ?_, ?_, ?_⟩
  · intro e h
    rw [hdiv] at h
    exact absurd h (by simp)
  · rw [demoMain_eq]
  · rw [demoMain_eq]
    simp

/-- C10: at the header's fixed-width `int` type (32 bits in this model) the
results of add, subtract and multiply stay in the representable range and
agree with the exact integer results modulo 2^32 — so the arithmetic is
modular, not arbitrary-precision, as the wraparound of `INT_MAX + 1`
exhibits — while divide alone produces a floating-point value, one that can
be a non-integer. -/
theorem operations_fixed_width_int_except_divide :
    (∀ x y : ℤ, Int32.inRange (Int32.add x y) ∧
      Int32.add x y % 2 ^ 32 = (x + y) % 2 ^ 32) ∧
    (∀ x y : ℤ, Int32.inRange (Int32.subtract x y) ∧
      Int32.subtract x y % 2 ^ 32 = (x - y) % 2 ^ 32) ∧
    (∀ x y : ℤ, Int32.inRange (Int32.multiply x y) ∧
      Int32.multiply x y % 2 ^ 32 = (x * y) % 2 ^ 32) ∧
    Int32.add 2147483647 1 = -2147483648 ∧
    Calculator.divide 10 4 = .ok (5 / 2 : ℚ) ∧
    (∀ n : ℤ, (5 / 2 : ℚ) ≠ (n : ℚ)) := by
  have hpow : (2 : ℤ) ^ 32 = 4294967296 := by norm_num
  refine ⟨?_, ?_, ?_, by decide, by norm_num [Calculator.divide], ?_⟩
  · intro x y
    simp only [Int32.add, Calculator.add, Int32.wrap, Int32.inRange, hpow]
    omega
  · intro x y
    simp only [Int32.subtract, Calculator.subtract, Int32.wrap, Int32.inRange, hpow]
    omega
  · intro x y
    simp only [Int32.multiply, Calculator.multiply, Int32.wrap, Int32.inRange, hpow]
    omega
  · intro n hn
    have h2 : (2 : ℚ) < (n : ℚ) := by rw [← hn]; norm_num
    have h3 : (n : ℚ) < 3 := by rw [← hn]; norm_num
    have h2i : (2 : ℤ) < n := by exact_mod_cast h2
    have h3i : n < 3 := by exact_mod_cast h3
    omega

end Mathlib4Targets
